import Mathlib

/-!
Verification development for the collabnix news-automation pipeline.

The three scripts (fetch_news.py, generate_posts.py, publish_to_wordpress.py)
are shallow-embedded below: network fetches, the feed/HTML parsing libraries
and the md5 hash are passed in as explicit inputs (results or function
parameters), the filesystem and the published-posts ledger become explicit
state, and every script-level function becomes a total Lean function.
Python strings are modelled as Lean strings whose characters stand for the
bytes of the Python string.
-/

namespace CollabnixNews

/-! ### Python string primitives used by the scripts -/

/-- Python str.strip(): drop leading and trailing whitespace. -/
def pyStrip (s : String) : String :=
  String.mk (((s.toList.dropWhile Char.isWhitespace).reverse.dropWhile Char.isWhitespace).reverse)

/-- Python line.rstrip(): drop trailing whitespace only. -/
def pyRstrip (s : String) : String :=
  String.mk ((s.toList.reverse.dropWhile Char.isWhitespace).reverse)

/-- Python str.lower() (ASCII model). -/
def pyLower (s : String) : String :=
  String.mk (s.toList.map Char.toLower)

/-- Python str.capitalize(): first character upper-cased, rest lower-cased. -/
def pyCapitalize (s : String) : String :=
  match s.toList with
  | [] => ""
  | c :: rest => String.mk (c.toUpper :: rest.map Char.toLower)

/-- Does the character list start with the given needle? -/
def listStarts : List Char → List Char → Bool
  | _, [] => true
  | [], _ :: _ => false
  | a :: as, b :: bs => a = b && listStarts as bs

/-- Python `needle in hay` substring test. -/
def strContainsSub (hay needle : String) : Bool :=
  (List.range (hay.toList.length + 1)).any fun i => listStarts (hay.toList.drop i) needle.toList

/-- Python str.startswith for a single candidate. -/
def strStarts (s pre : String) : Bool :=
  listStarts s.toList pre.toList

/-- Python truthiness of an optional string: None and the empty string are falsy. -/
def truthyOpt : Option String → Bool
  | none => false
  | some s => s ≠ ""

/-- How Python renders an optional string inside an f-string (None prints as "None"). -/
def optStr : Option String → String
  | none => "None"
  | some s => s

/-- Python ", ".join. -/
def joinComma (l : List String) : String :=
  String.intercalate ", " l

/-! ### fetch_news.py: data model of parsed feed entries and scraped blocks -/

/-- One feedparser entry, with the fields the script reads.  The parsing
library is external, so the entry arrives already structured; per-item image
candidates found by the HTML sub-parses are recorded as optional strings. -/
structure FeedEntry where
  title : String
  link : String
  published : Option String
  summary : Option String
  /-- per media_content element: its url field, when the element has one -/
  mediaContentUrls : List (Option String)
  /-- per content element that has a value: src of the first img tag found inside, if any -/
  contentImgSrcs : List (Option String)
  /-- src of the first img tag found in the summary html, if any -/
  summaryImgSrc : Option String
deriving DecidableEq, Repr

/-- One block matched by soup.select('article, .post, .blog-post, .entry'),
with the four sub-selections the script performs inside it.  An outer `none`
means the element was not found; the inner option is the attribute value. -/
structure PageBlock where
  titleText : Option String
  anchorHref : Option (Option String)
  summaryText : Option String
  imgSrc : Option (Option String)
deriving DecidableEq, Repr

/-- A raw article record as written to the per-category JSON files. -/
structure Article where
  title : String
  link : Option String
  published : String
  summary : String
  imageUrl : Option String
  source : String
  localImage : Option String := none
deriving DecidableEq, Repr

/-- The image-candidate cascade of fetch_rss_feed: media_content first, then
content img tags, then the summary img, each later stage consulted only while
the current candidate is falsy (None or empty). -/
def extractEntryImage (e : FeedEntry) : Option String :=
  let i1 := e.mediaContentUrls.findSome? id
  let i2 := if truthyOpt i1 then i1 else
    match e.contentImgSrcs.findSome? id with
    | some u => some u
    | none => i1
  if truthyOpt i2 then i2 else
    if e.summary.isSome then
      match e.summaryImgSrc with
      | some u => some u
      | none => i2
    else i2

/-- Build the article dict of fetch_rss_feed from one entry. -/
def articleOfEntry (now url : String) (e : FeedEntry) : Article :=
  { title := e.title
    link := some e.link
    published := e.published.getD now
    summary := e.summary.getD ""
    imageUrl := extractEntryImage e
    source := url
    localImage := none }

/-- fetch_rss_feed: on any raised failure return []; otherwise convert the
latest 10 entries. -/
def fetch_rss_feed (now url : String) (res : Except String (List FeedEntry)) :
    List Article :=
  match res with
  | Except.error _ => []
  | Except.ok entries => (entries.take 10).map (articleOfEntry now url)

/-- Link/image resolution of fetch_website: a relative, non-empty value is
joined against the page url (urljoin is the external library function). -/
def resolveRel (urljoin : String → String → String) (pageUrl v : String) : String :=
  if v ≠ "" && !(strStarts v "http://") && !(strStarts v "https://") then
    urljoin pageUrl v
  else v

/-- The body of the fetch_website loop for one matched block: an article is
produced only when both a title element and a link element were found. -/
def articleOfBlock (now : String) (urljoin : String → String → String)
    (pageUrl : String) (b : PageBlock) : Option Article :=
  match b.titleText, b.anchorHref with
  | some t, some href =>
    let link : Option String :=
      match href with
      | none => none
      | some h => some (resolveRel urljoin pageUrl h)
    let imageUrl : Option String :=
      match b.imgSrc with
      | none => none
      | some srcAttr =>
        match srcAttr with
        | none => none
        | some s => some (resolveRel urljoin pageUrl s)
    some { title := pyStrip t
           link := link
           published := now
           summary := (b.summaryText.map pyStrip).getD ""
           imageUrl := imageUrl
           source := pageUrl
           localImage := none }
  | _, _ => none

/-- fetch_website: on any raised failure return []; otherwise scan the first
10 matched blocks, keeping those with a title and a link element. -/
def fetch_website (now : String) (urljoin : String → String → String)
    (url : String) (res : Except String (List PageBlock)) : List Article :=
  match res with
  | Except.error _ => []
  | Except.ok blocks => (blocks.take 10).filterMap (articleOfBlock now urljoin url)

/-- A source descriptor from the SOURCES table. -/
inductive SourceKind where
  | rss
  | url
deriving DecidableEq, Repr

structure SourceCfg where
  kind : SourceKind
  endpoint : String
deriving DecidableEq, Repr

/-- The static SOURCES configuration of fetch_news.py. -/
def SOURCES : List (String × List SourceCfg) :=
  [("docker",
    [⟨SourceKind.rss, "https://www.docker.com/blog/feed/"⟩,
     ⟨SourceKind.rss, "https://docs.docker.com/release-notes/feed/"⟩,
     ⟨SourceKind.url, "https://www.docker.com/blog/"⟩]),
   ("kubernetes",
    [⟨SourceKind.rss, "https://kubernetes.io/feed.xml"⟩,
     ⟨SourceKind.rss, "https://www.cncf.io/feed/"⟩,
     ⟨SourceKind.url, "https://kubernetes.io/blog/"⟩]),
   ("container",
    [⟨SourceKind.rss, "https://www.linkedin.com/company/docker/rss"⟩,
     ⟨SourceKind.rss, "https://www.redhat.com/en/rss/blog/channel/kubernetes"⟩])]

/-- The external world a fetch run interacts with: per-endpoint fetch/parse
results (an error marks any raised failure), the clock, urljoin and md5. -/
structure FetchEnv where
  rssResult : String → Except String (List FeedEntry)
  pageResult : String → Except String (List PageBlock)
  imageResult : String → Except String Unit
  now : String
  urljoin : String → String → String
  md5hex : String → String

/-- Dispatch of the main loop: which reader runs for a source. -/
def readSource (env : FetchEnv) (cfg : SourceCfg) : List Article :=
  match cfg.kind with
  | SourceKind.rss => fetch_rss_feed env.now cfg.endpoint (env.rssResult cfg.endpoint)
  | SourceKind.url => fetch_website env.now env.urljoin cfg.endpoint (env.pageResult cfg.endpoint)

/-- The fetch/parse of a source raises (is caught inside the reader). -/
def sourceFetchFails (env : FetchEnv) (cfg : SourceCfg) : Prop :=
  match cfg.kind with
  | SourceKind.rss => ∃ e, env.rssResult cfg.endpoint = Except.error e
  | SourceKind.url => ∃ e, env.pageResult cfg.endpoint = Except.error e

/-! ### fetch_news.py: download_image and the main loop -/

/-- Hex digit value, as urllib percent-decoding accepts it. -/
def hexVal (c : Char) : Option Nat :=
  if '0' ≤ c ∧ c ≤ '9' then some (c.toNat - '0'.toNat)
  else if 'a' ≤ c ∧ c ≤ 'f' then some (c.toNat - 'a'.toNat + 10)
  else if 'A' ≤ c ∧ c ≤ 'F' then some (c.toNat - 'A'.toNat + 10)
  else none

/-- urllib.parse.unquote on the byte level: a valid percent sequence becomes
the byte it denotes, an invalid one is kept literally. -/
def unquoteChars : List Char → List Char
  | [] => []
  | '%' :: a :: b :: rest =>
    match hexVal a, hexVal b with
    | some x, some y => Char.ofNat (16 * x + y) :: unquoteChars rest
    | _, _ => '%' :: unquoteChars (a :: b :: rest)
  | c :: rest => c :: unquoteChars rest
termination_by l => l.length
decreasing_by all_goals simp_arith [List.length]

/-- Index of the last occurrence of a character, if any. -/
def lastIdxOf (c : Char) (cs : List Char) : Option Nat :=
  ((List.range cs.length).filter fun i => cs.get? i = some c).getLast?

/-- os.path.splitext, extension part only: the suffix from the last dot of the
final path component, provided some earlier character of that component is not
a dot (so dotfiles have no extension). -/
def splitextExt (cs : List Char) : List Char :=
  let start : Nat :=
    match lastIdxOf '/' cs with
    | some i => i + 1
    | none => 0
  match lastIdxOf '.' cs with
  | none => []
  | some d =>
    if start ≤ d ∧ (List.range d).any (fun k => start ≤ k ∧ cs.get? k ≠ some '.') then
      cs.drop d
    else []

/-- The file extension download_image derives from a url: strip the query,
percent-decode, take the splitext extension, and fall back to ".jpg" when it
is absent or longer than 5 characters. -/
def fileExtOf (url : String) : String :=
  let ext := splitextExt (unquoteChars (url.toList.takeWhile (· ≠ '?')))
  if ext.isEmpty ∨ ext.length > 5 then ".jpg" else String.mk ext

/-- The content-addressed local path download_image computes for an image. -/
def imageLocalPath (md5hex : String → String) (title url : String) : String :=
  "data/images/" ++ md5hex (title ++ "_" ++ url) ++ fileExtOf url

/-- download_image.  The filesystem is the list of existing paths; the result
carries the returned value, the updated filesystem, and how many network
fetches were performed.  A falsy url returns immediately; an existing file is
returned without fetching; a fetch failure is caught and yields none. -/
def download_image (md5hex : String → String)
    (imageResult : String → Except String Unit) (fs : List String)
    (url : Option String) (category title : String) :
    Option String × List String × Nat :=
  if !(truthyOpt url) then (none, fs, 0)
  else
    match url with
    | none => (none, fs, 0)
    | some u =>
      let localPath := imageLocalPath md5hex title u
      if localPath ∈ fs then (some localPath, fs, 0)
      else
        match imageResult u with
        | Except.ok _ => (some localPath, localPath :: fs, 1)
        | Except.error _ => (none, fs, 1)

/-- The per-article image pass of the fetch main loop: download the image of
each article whose image_url is truthy and record the local path on success. -/
def attachImages (env : FetchEnv) (category : String) :
    List Article → List String → List Article × List String
  | [], fs => ([], fs)
  | a :: rest, fs =>
    if truthyOpt a.imageUrl then
      let r := download_image env.md5hex env.imageResult fs a.imageUrl category a.title
      let a' := match r.1 with
        | some p => { a with localImage := some p }
        | none => a
      let rest' := attachImages env category rest r.2.1
      (a' :: rest'.1, rest'.2)
    else
      let rest' := attachImages env category rest fs
      (a :: rest'.1, rest'.2)

/-- The per-category source loop of the fetch main: read each source, attach
its images, and accumulate the articles in order. -/
def processSources (env : FetchEnv) (category : String) :
    List SourceCfg → List String → List Article × List String
  | [], fs => ([], fs)
  | s :: rest, fs =>
    let got := attachImages env category (readSource env s) fs
    let rest' := processSources env category rest got.2
    (got.1 ++ rest'.1, rest'.2)

/-- The outer category loop of the fetch main. -/
def processCategories (env : FetchEnv) :
    List (String × List SourceCfg) → List String →
      List (String × List Article) × List String
  | [], fs => ([], fs)
  | (cat, srcs) :: rest, fs =>
    let got := processSources env cat srcs fs
    let rest' := processCategories env rest got.2
    ((cat, got.1) :: rest'.1, rest'.2)

/-! ### generate_posts.py -/

/-- The three datetime.now() renderings generate_posts.py uses during one
post construction. -/
structure Clock where
  /-- strftime %Y%m%d_%H%M%S, used inside the post id -/
  stamp : String
  /-- strftime %b %d, %Y, appended to the title -/
  dateStr : String
  /-- strftime %Y-%m-%d %H:%M:%S, stored as created_at -/
  dateTime : String
deriving DecidableEq, Repr

/-- A generated post record as written to data/posts/<id>.json. -/
structure Post where
  id : String
  title : String
  content : String
  excerpt : String
  featuredImage : Option String
  featuredImageUrl : Option String
  category : String
  tags : List String
  originalUrl : Option String
  createdAt : String
deriving DecidableEq, Repr

/-- The whitespace cleanup get_article_content applies to the html2text
output: keep only lines with non-whitespace content, right-stripped. -/
def cleanMarkdown (s : String) : String :=
  String.intercalate "\n"
    (((s.splitOn "\n").filter fun l => pyStrip l ≠ "").map pyRstrip)

/-- get_article_content: the fetch+parse+html2text pipeline is external, so
its outcome arrives as an Except; any raised failure is caught and yields
none, success yields the cleaned markdown. -/
def get_article_content (fetched : Except String String) : Option String :=
  match fetched with
  | Except.error _ => none
  | Except.ok text => some (cleanMarkdown text)

/-- The tags list built inside generate_post_content for the Tags footer. -/
def footerTags (category : String) : List String :=
  [category, "container", "cloud-native"] ++
    (if category = "docker" then ["containers", "dockerhub", "docker-compose"]
     else if category = "kubernetes" then ["k8s", "cncf", "cloud-native"]
     else [])

/-- The body text generate_post_content starts from: the extracted full
content when truthy, otherwise the item's summary. -/
def postBodyBase (article : Article) (fetched : Except String String) : String :=
  match get_article_content fetched with
  | some c => if c = "" then article.summary else c
  | none => article.summary

/-- generate_post_content: full content when truthy, else the summary, then
the attribution block and the category/tags footer. -/
def generate_post_content (article : Article) (category : String)
    (fetched : Except String String) : String :=
  postBodyBase article fetched
    ++ "\n\n---\n\nSource: [" ++ article.source ++ "](" ++ optStr article.link ++ ")\n"
    ++ "\n\nCategory: " ++ pyCapitalize category ++ "\n"
    ++ "Tags: " ++ joinComma (footerTags category) ++ "\n"

/-- format_post_title: prefix the category unless the lower-cased title
already contains it, then append the current date. -/
def format_post_title (title category : String) (clock : Clock) : String :=
  let t :=
    if !(strContainsSub (pyLower title) (pyLower category)) then
      pyCapitalize category ++ ": " ++ title
    else title
  t ++ " - " ++ clock.dateStr

/-- create_post_from_article: builds the post record, including the run-local
id category_index_timestamp. -/
def create_post_from_article (clock : Clock) (article : Article)
    (category : String) (index : Nat) (fetched : Except String String) : Post :=
  { id := category ++ "_" ++ toString index ++ "_" ++ clock.stamp
    title := format_post_title article.title category clock
    content := generate_post_content article category fetched
    excerpt := article.summary
    featuredImage := article.localImage
    featuredImageUrl := article.imageUrl
    category := category
    tags := [category, "container", "cloud-native"]
    originalUrl := article.link
    createdAt := clock.dateTime }

/-! ### publish_to_wordpress.py -/

/-- How one publish attempt for a post ends at the remote side: the final
post-creation call returns 200/201 with an id and a link, or some call in the
attempt returns a non-success status, or a network fault raises. -/
inductive AttemptResult where
  | created (wpId : Nat) (wpUrl : String)
  | httpFailed (status : Nat) (body : String)
  | raised (msg : String)
deriving DecidableEq, Repr

/-- publish_post_to_wordpress: True exactly when the creation call came back
with a success status; a non-success status or a raised exception is caught
and reported as False. -/
def publish_post_to_wordpress (res : AttemptResult) : Bool :=
  match res with
  | AttemptResult.created _ _ => true
  | AttemptResult.httpFailed _ _ => false
  | AttemptResult.raised _ => false

/-- The publish loop of main: walk all_posts, skip ids already in the
published set, otherwise invoke the publisher; on success append to
newly_published and add the id to the set.  Returns (posts for which the
publisher was invoked, newly published posts), both in loop order. -/
def publishLoop (r : Post → AttemptResult) :
    List Post → List String → List Post × List Post
  | [], _ => ([], [])
  | p :: ps, ids =>
    if p.id ∈ ids then publishLoop r ps ids
    else if publish_post_to_wordpress (r p) then
      (p :: (publishLoop r ps (p.id :: ids)).1,
       p :: (publishLoop r ps (p.id :: ids)).2)
    else
      (p :: (publishLoop r ps ids).1, (publishLoop r ps ids).2)

/-- The posts main hands to the publisher during one run against a ledger. -/
def publishAttempts (r : Post → AttemptResult) (allPosts ledger : List Post) :
    List Post :=
  (publishLoop r allPosts (ledger.map Post.id)).1

/-- The newly_published list of one run. -/
def newlyPublished (r : Post → AttemptResult) (allPosts ledger : List Post) :
    List Post :=
  (publishLoop r allPosts (ledger.map Post.id)).2

/-- The content of data/published_posts.json after one run: rewritten as
newly_published extended with the previous content, and only touched when
something was newly published. -/
def updatedLedger (r : Post → AttemptResult) (allPosts ledger : List Post) :
    List Post :=
  let newly := newlyPublished r allPosts ledger
  if newly.isEmpty then ledger else newly ++ ledger

/-- Python truthiness of one environment value (missing or empty is falsy). -/
def envTruthy : Option String → Bool
  | none => false
  | some s => s ≠ ""

/-- What the publish phase observes of the world. -/
structure PublishEnv where
  username : Option String
  password : Option String
  apiUrl : Option String
  /-- loading data/posts.json, which may raise -/
  postsFile : Except String (List Post)
  /-- data/published_posts.json, when the file exists -/
  ledgerDisk : Option (List Post)
  /-- how the remote side answers one publish attempt for a post -/
  remote : Post → AttemptResult

/-- How the publish phase of a run ends. -/
inductive PublishOutcome where
  | configError
  | loadError (msg : String)
  | completed (newCount : Nat)
deriving DecidableEq, Repr

/-- The observable effects of one run of the publish main. -/
structure PublishTrace where
  outcome : PublishOutcome
  /-- number of posts for which a publish attempt (network activity) started -/
  networkAttempts : Nat
  /-- final on-disk ledger (none when the file never existed) -/
  ledgerDisk : Option (List Post)
deriving Repr

/-- main of publish_to_wordpress.py: refuse to run on missing credentials,
stop on an unreadable posts file, otherwise run the publish loop against the
loaded ledger and rewrite the ledger file when something was published. -/
def publish_main (env : PublishEnv) : PublishTrace :=
  if !(envTruthy env.username && envTruthy env.password && envTruthy env.apiUrl) then
    { outcome := PublishOutcome.configError
      networkAttempts := 0
      ledgerDisk := env.ledgerDisk }
  else
    match env.postsFile with
    | Except.error e =>
      { outcome := PublishOutcome.loadError e
        networkAttempts := 0
        ledgerDisk := env.ledgerDisk }
    | Except.ok allPosts =>
      let ledger := env.ledgerDisk.getD []
      let run := publishLoop env.remote allPosts (ledger.map Post.id)
      { outcome := PublishOutcome.completed run.2.length
        networkAttempts := run.1.length
        ledgerDisk := if run.2.isEmpty then env.ledgerDisk else some (run.2 ++ ledger) }

/-! ### Sample inputs used by concrete theorems -/

def sampleClock : Clock :=
  { stamp := "20250101_000000", dateStr := "Jan 01, 2025", dateTime := "2025-01-01 00:00:00" }

def sampleArticle : Article :=
  { title := "Docker 24 released"
    link := some "https://docker.com/blog/a"
    published := "2025-01-01 00:00:00"
    summary := "short summary"
    imageUrl := none
    source := "https://www.docker.com/blog/feed/"
    localImage := none }

/-! ### Claim theorems -/

/-- C4: for every source, whatever the underlying feed or page contains and
however the fetch went, the reader returns at most 10 raw items. -/
theorem C4_source_truncation (env : FetchEnv) (cfg : SourceCfg) :
    (readSource env cfg).length ≤ 10 := by
  rcases cfg with ⟨kind, endpoint⟩
  cases kind with
  | rss =>
    simp only [readSource, fetch_rss_feed]
    cases env.rssResult endpoint with
    | error e => simp
    | ok entries =>
      simp only [List.length_map, List.length_take]
      omega
  | url =>
    simp only [readSource, fetch_website]
    cases env.pageResult endpoint with
    | error e => simp
    | ok blocks =>
      calc ((blocks.take 10).filterMap
              (articleOfBlock env.now env.urljoin endpoint)).length
          ≤ (blocks.take 10).length := List.length_filterMap_le _ _
        _ ≤ 10 := by
            simp only [List.length_take]
            omega

/-- C6: when fetching or parsing the full document fails, extraction returns
none instead of raising, and the constructed post's body is built from the
item's summary (followed by the fixed attribution and footer), with the
summary also kept as the excerpt — a valid Post is still produced. -/
theorem C6_summary_fallback (clock : Clock) (a : Article) (category : String)
    (index : Nat) (e : String) :
    get_article_content (Except.error e) = none ∧
    (create_post_from_article clock a category index (Except.error e)).content =
      a.summary
        ++ "\n\n---\n\nSource: [" ++ a.source ++ "](" ++ optStr a.link ++ ")\n"
        ++ "\n\nCategory: " ++ pyCapitalize category ++ "\n"
        ++ "Tags: " ++ joinComma (footerTags category) ++ "\n" ∧
    (create_post_from_article clock a category index (Except.error e)).excerpt =
      a.summary := by
  exact ⟨rfl, rfl, rfl⟩

/-- C2 counterexample: two processings of the very same raw item (hence the
same link) in the same run, differing only in batch position, produce
different identity keys; likewise two runs differing only in their timestamp.
The key is therefore not a pure function of the link. -/
theorem C2_counterexample :
    ((create_post_from_article sampleClock sampleArticle "docker" 0
        (Except.error "down")).originalUrl =
      (create_post_from_article sampleClock sampleArticle "docker" 1
        (Except.error "down")).originalUrl) ∧
    ((create_post_from_article sampleClock sampleArticle "docker" 0
        (Except.error "down")).id ≠
      (create_post_from_article sampleClock sampleArticle "docker" 1
        (Except.error "down")).id) ∧
    ((create_post_from_article sampleClock sampleArticle "docker" 0
        (Except.error "down")).id ≠
      (create_post_from_article
        { sampleClock with stamp := "20250102_000000" }
        sampleArticle "docker" 0 (Except.error "down")).id) := by
  refine ⟨rfl, ?_, ?_⟩ <;> decide

/-- C2 (amended): the identity key equals category_index_timestamp; it is a
pure function of the category, the item's position in the batch and the
current time, and does not depend on the item's link (or any other field). -/
theorem C2_amended_identity_key (c : Clock) (a₁ a₂ : Article) (category : String)
    (index : Nat) (r₁ r₂ : Except String String) :
    (create_post_from_article c a₁ category index r₁).id =
      category ++ "_" ++ toString index ++ "_" ++ c.stamp ∧
    (create_post_from_article c a₁ category index r₁).id =
      (create_post_from_article c a₂ category index r₂).id := by
  exact ⟨rfl, rfl⟩

/-- Modelled from the spec: the tag set the spec asserts for a constructed
Post — the base tags together with the category-specific extras. -/
def specClaimedTagSet (category : String) : List String :=
  [category, "container", "cloud-native"] ++
    (if category = "docker" then ["containers", "dockerhub", "docker-compose"]
     else if category = "kubernetes" then ["k8s", "cncf", "cloud-native"]
     else [])

/-- C3 counterexample: for category "docker" the spec-claimed tag set contains
"containers", but the constructed Post's tags field does not — the extras
never reach the Post's tags. -/
theorem C3_counterexample :
    ("containers" ∈ specClaimedTagSet "docker") ∧
    ("containers" ∉
      (create_post_from_article sampleClock sampleArticle "docker" 0
        (Except.error "down")).tags) := by
  decide

/-- C3 (amended): the constructed Post's tags field is always exactly
[category, "container", "cloud-native"]; the category-specific extras appear
only in the Tags footer line of the generated content. -/
theorem C3_amended_tags (c : Clock) (a : Article) (category : String)
    (index : Nat) (r : Except String String) :
    (create_post_from_article c a category index r).tags =
      [category, "container", "cloud-native"] ∧
    (create_post_from_article c a category index r).content =
      postBodyBase a r
        ++ "\n\n---\n\nSource: [" ++ a.source ++ "](" ++ optStr a.link ++ ")\n"
        ++ "\n\nCategory: " ++ pyCapitalize category ++ "\n"
        ++ "Tags: " ++ joinComma (footerTags category) ++ "\n" ∧
    footerTags "docker" =
      ["docker", "container", "cloud-native",
       "containers", "dockerhub", "docker-compose"] ∧
    footerTags "kubernetes" =
      ["kubernetes", "container", "cloud-native", "k8s", "cncf", "cloud-native"] := by
  exact ⟨rfl, rfl, rfl, rfl⟩

/-- C7: the asset resolver's path is the deterministic content-address
"data/images/" ++ md5(title ++ "_" ++ url) ++ ext(url); an existing file is
returned with zero fetches; and a second call with identical inputs after a
successful first call returns the identical path with zero further fetches. -/
theorem C7_asset_cache_idempotent (md5hex : String → String)
    (imageResult : String → Except String Unit) (fs : List String)
    (u category title : String) (hu : u ≠ "") :
    (∀ p fs' n,
      download_image md5hex imageResult fs (some u) category title = (p, fs', n) →
        ∀ q, p = some q → q = imageLocalPath md5hex title u) ∧
    (imageLocalPath md5hex title u ∈ fs →
      download_image md5hex imageResult fs (some u) category title =
        (some (imageLocalPath md5hex title u), fs, 0)) ∧
    (∀ p fs' n,
      download_image md5hex imageResult fs (some u) category title =
          (some p, fs', n) →
        download_image md5hex imageResult fs' (some u) category title =
          (some p, fs', 0)) := by
  have ht : truthyOpt (some u) = true := by simp [truthyOpt, hu]
  by_cases hmem : imageLocalPath md5hex title u ∈ fs
  · have hrun : download_image md5hex imageResult fs (some u) category title =
        (some (imageLocalPath md5hex title u), fs, 0) := by
      simp [download_image, ht, hmem]
    refine ⟨?_, fun _ => hrun, ?_⟩
    · intro p fs' n h q hq
      rw [hrun] at h
      cases h
      cases hq
      rfl
    · intro p fs' n h
      rw [hrun] at h
      cases h
      exact hrun
  · cases hres : imageResult u with
    | ok unitVal =>
      have hrun : download_image md5hex imageResult fs (some u) category title =
          (some (imageLocalPath md5hex title u),
           imageLocalPath md5hex title u :: fs, 1) := by
        simp [download_image, ht, hmem, hres]
      refine ⟨?_, fun hm => absurd hm hmem, ?_⟩
      · intro p fs' n h q hq
        rw [hrun] at h
        cases h
        cases hq
        rfl
      · intro p fs' n h
        rw [hrun] at h
        cases h
        simp [download_image, ht, List.mem_cons]
    | error msg =>
      have hrun : download_image md5hex imageResult fs (some u) category title =
          (none, fs, 1) := by
        simp [download_image, ht, hmem, hres]
      refine ⟨?_, fun hm => absurd hm hmem, ?_⟩
      · intro p fs' n h q hq
        rw [hrun] at h
        cases h
        cases hq
      · intro p fs' n h
        rw [hrun] at h
        cases h

/-- Witness for C7 at a concrete url and title: a fresh filesystem, a fetch
that succeeds, and the resulting cache behavior. -/
theorem C7_witness :
    (∀ p fs' n,
      download_image (fun s => "h" ++ toString s.length) (fun _ => Except.ok ())
          [] (some "https://x.com/img.png?v=2") "docker" "Hello" = (p, fs', n) →
        ∀ q, p = some q →
          q = imageLocalPath (fun s => "h" ++ toString s.length) "Hello"
                "https://x.com/img.png?v=2") ∧
    (imageLocalPath (fun s => "h" ++ toString s.length) "Hello"
        "https://x.com/img.png?v=2" ∈ ([] : List String) →
      download_image (fun s => "h" ++ toString s.length) (fun _ => Except.ok ())
          [] (some "https://x.com/img.png?v=2") "docker" "Hello" =
        (some (imageLocalPath (fun s => "h" ++ toString s.length) "Hello"
                "https://x.com/img.png?v=2"), [], 0)) ∧
    (∀ p fs' n,
      download_image (fun s => "h" ++ toString s.length) (fun _ => Except.ok ())
          [] (some "https://x.com/img.png?v=2") "docker" "Hello" =
          (some p, fs', n) →
        download_image (fun s => "h" ++ toString s.length) (fun _ => Except.ok ())
            fs' (some "https://x.com/img.png?v=2") "docker" "Hello" =
          (some p, fs', 0)) :=
  C7_asset_cache_idempotent (fun s => "h" ++ toString s.length)
    (fun _ => Except.ok ()) [] "https://x.com/img.png?v=2" "docker" "Hello"
    (by decide)

/-- C10: an absent or empty candidate image url returns none immediately with
no filesystem change and no fetch; and for a non-empty uncached url whose
download fails, the resolver also returns none (after the one failed fetch)
rather than raising. -/
theorem C10_absent_url_no_fetch (md5hex : String → String)
    (imageResult : String → Except String Unit) (fs : List String)
    (category title : String) :
    download_image md5hex imageResult fs none category title = (none, fs, 0) ∧
    download_image md5hex imageResult fs (some "") category title = (none, fs, 0) ∧
    (∀ u e, u ≠ "" → imageResult u = Except.error e →
      imageLocalPath md5hex title u ∉ fs →
      download_image md5hex imageResult fs (some u) category title =
        (none, fs, 1)) := by
  refine ⟨rfl, rfl, ?_⟩
  intro u e hu hres hmem
  have ht : truthyOpt (some u) = true := by simp [truthyOpt, hu]
  simp [download_image, ht, hmem, hres]

/-- Witness for C10: all three conjuncts at concrete inputs, the third for a
concrete url whose download fails. -/
theorem C10_witness :
    download_image (fun _ => "h") (fun _ => Except.error "net down") []
        none "docker" "Hello" = (none, [], 0) ∧
    download_image (fun _ => "h") (fun _ => Except.error "net down") []
        (some "") "docker" "Hello" = (none, [], 0) ∧
    download_image (fun _ => "h") (fun _ => Except.error "net down") []
        (some "https://x.com/img.png") "docker" "Hello" = (none, [], 1) := by
  have h := C10_absent_url_no_fetch (fun _ => "h")
    (fun _ => Except.error "net down") [] "docker" "Hello"
  exact ⟨h.1, h.2.1,
    h.2.2 "https://x.com/img.png" "net down" (by decide) rfl (by decide)⟩

/-- C9: when any of the three credential values is missing from the
environment, the publish phase reports the configuration error and stops with
zero publish attempts (no network activity) and the on-disk ledger untouched. -/
theorem C9_missing_credentials_abort (env : PublishEnv)
    (h : env.username = none ∨ env.password = none ∨ env.apiUrl = none) :
    publish_main env =
      { outcome := PublishOutcome.configError
        networkAttempts := 0
        ledgerDisk := env.ledgerDisk } := by
  rcases h with h | h | h <;> simp [publish_main, envTruthy, h]

def wEnvNoCreds : PublishEnv :=
  { username := none
    password := some "secret"
    apiUrl := some "https://blog.example.com/wp-json"
    postsFile := Except.ok []
    ledgerDisk := none
    remote := fun _ => AttemptResult.raised "unreachable" }

/-- Witness for C9: a concrete environment missing the username. -/
theorem C9_witness :
    publish_main wEnvNoCreds =
      { outcome := PublishOutcome.configError
        networkAttempts := 0
        ledgerDisk := none } :=
  C9_missing_credentials_abort wEnvNoCreds (Or.inl rfl)

/-- A failing source contributes no articles. -/
theorem readSource_of_fails (env : FetchEnv) (cfg : SourceCfg)
    (hfail : sourceFetchFails env cfg) : readSource env cfg = [] := by
  rcases cfg with ⟨kind, endpoint⟩
  cases kind with
  | rss =>
    obtain ⟨e, he⟩ := hfail
    simp [readSource, fetch_rss_feed, he]
  | url =>
    obtain ⟨e, he⟩ := hfail
    simp [readSource, fetch_website, he]

/-- C5: a source whose fetch/parse raises yields the empty item sequence, and
deleting it from its position in the per-category source list changes neither
the collected articles nor the filesystem — the remaining sources, and all
other categories, are processed exactly as without it. -/
theorem C5_source_isolation (env : FetchEnv) (cat : String) (fs : List String)
    (xs ys : List SourceCfg) (bad : SourceCfg)
    (hfail : sourceFetchFails env bad) :
    readSource env bad = [] ∧
    processSources env cat (xs ++ bad :: ys) fs =
      processSources env cat (xs ++ ys) fs ∧
    (∀ pre post : List (String × List SourceCfg),
      processCategories env (pre ++ (cat, xs ++ bad :: ys) :: post) fs =
        processCategories env (pre ++ (cat, xs ++ ys) :: post) fs) := by
  have hnil : readSource env bad = [] := readSource_of_fails env bad hfail
  have hbad : ∀ g, processSources env cat (bad :: ys) g =
      processSources env cat ys g := by
    intro g
    simp [processSources, hnil, attachImages]
  have hmid : ∀ (xs : List SourceCfg) (g : List String),
      processSources env cat (xs ++ bad :: ys) g =
        processSources env cat (xs ++ ys) g := by
    intro xs
    induction xs with
    | nil => intro g; exact hbad g
    | cons x rest ih =>
      intro g
      simp only [List.cons_append, processSources, List.append_eq]
      rw [ih]
  refine ⟨hnil, hmid xs fs, ?_⟩
  intro pre post
  induction pre generalizing fs with
  | nil =>
    simp only [List.nil_append, processCategories]
    rw [hmid xs fs]
  | cons c rest ih =>
    rcases c with ⟨ccat, csrcs⟩
    simp only [List.cons_append, processCategories, List.append_eq]
    rw [ih]

def wBadSource : SourceCfg :=
  { kind := SourceKind.rss, endpoint := "https://www.docker.com/blog/feed/" }

def wGoodSource : SourceCfg :=
  { kind := SourceKind.url, endpoint := "https://www.docker.com/blog/" }

def wFetchEnv : FetchEnv :=
  { rssResult := fun _ => Except.error "connection timed out"
    pageResult := fun _ => Except.ok []
    imageResult := fun _ => Except.ok ()
    now := "2025-01-01 00:00:00"
    urljoin := fun base rel => base ++ rel
    md5hex := fun _ => "d41d8cd98f00b204e9800998ecf8427e" }

/-- Witness for C5: a concrete environment where the rss fetch of one source
raises while a scraped source around it still gets processed. -/
theorem C5_witness :
    readSource wFetchEnv wBadSource = [] ∧
    processSources wFetchEnv "docker" ([wGoodSource] ++ wBadSource :: [wGoodSource]) [] =
      processSources wFetchEnv "docker" ([wGoodSource] ++ [wGoodSource]) [] ∧
    (∀ pre post : List (String × List SourceCfg),
      processCategories wFetchEnv
          (pre ++ ("docker", [wGoodSource] ++ wBadSource :: [wGoodSource]) :: post) [] =
        processCategories wFetchEnv
          (pre ++ ("docker", [wGoodSource] ++ [wGoodSource]) :: post) []) :=
  C5_source_isolation wFetchEnv "docker" [] [wGoodSource] [wGoodSource] wBadSource
    ⟨"connection timed out", rfl⟩

/-! ### Invariants of the publish loop -/

/-- The posts handed to the publisher form a sublist of all_posts. -/
theorem publishLoop_attempts_sublist (r : Post → AttemptResult) :
    ∀ (ps : List Post) (ids : List String), (publishLoop r ps ids).1.Sublist ps := by
  intro ps
  induction ps with
  | nil => intro ids; simp [publishLoop]
  | cons p ps ih =>
    intro ids
    by_cases h : p.id ∈ ids
    · simpa [publishLoop, h] using (ih ids).cons p
    · cases hs : publish_post_to_wordpress (r p) with
      | true => simpa [publishLoop, h, hs] using (ih (p.id :: ids)).cons₂ p
      | false => simpa [publishLoop, h, hs] using (ih ids).cons₂ p

/-- A key already in the published set is never handed to the publisher. -/
theorem publishLoop_skip_of_mem (r : Post → AttemptResult) (K : String) :
    ∀ (ps : List Post) (ids : List String), K ∈ ids →
      K ∉ (publishLoop r ps ids).1.map Post.id := by
  intro ps
  induction ps with
  | nil => intro ids _; simp [publishLoop]
  | cons p ps ih =>
    intro ids hK
    by_cases h : p.id ∈ ids
    · simpa [publishLoop, h] using ih ids hK
    · have hne : K ≠ p.id := fun he => h (he ▸ hK)
      cases hs : publish_post_to_wordpress (r p) with
      | true =>
        have h2 := ih (p.id :: ids) (List.mem_cons_of_mem _ hK)
        simp only [publishLoop, if_neg h, hs, if_true, List.map_cons,
          List.mem_cons, not_or]
        exact ⟨hne, h2⟩
      | false =>
        have h2 := ih ids hK
        simp only [publishLoop, if_neg h, hs, if_false, Bool.false_eq_true,
          List.map_cons, List.mem_cons, not_or]
        exact ⟨hne, h2⟩

/-- newly_published carries no duplicate ids, only ids outside the initial
published set, and only posts that were attempted and succeeded. -/
theorem publishLoop_newly_spec (r : Post → AttemptResult) :
    ∀ (ps : List Post) (ids : List String),
      ((publishLoop r ps ids).2.map Post.id).Nodup ∧
      (∀ K ∈ (publishLoop r ps ids).2.map Post.id, K ∉ ids) ∧
      (∀ q ∈ (publishLoop r ps ids).2,
        q ∈ (publishLoop r ps ids).1 ∧ publish_post_to_wordpress (r q) = true) := by
  intro ps
  induction ps with
  | nil => intro ids; simp [publishLoop]
  | cons p ps ih =>
    intro ids
    by_cases h : p.id ∈ ids
    · simpa [publishLoop, h] using ih ids
    · cases hs : publish_post_to_wordpress (r p) with
      | true =>
        obtain ⟨h1, h2, h3⟩ := ih (p.id :: ids)
        have heq : publishLoop r (p :: ps) ids =
            (p :: (publishLoop r ps (p.id :: ids)).1,
             p :: (publishLoop r ps (p.id :: ids)).2) := by
          simp [publishLoop, h, hs]
        rw [heq]
        refine ⟨?_, ?_, ?_⟩
        · dsimp only
          rw [List.map_cons, List.nodup_cons]
          refine ⟨fun hmem => ?_, h1⟩
          exact (h2 p.id hmem) (List.mem_cons_self _ _)
        · dsimp only
          rw [List.map_cons]
          intro K hK
          rcases List.mem_cons.mp hK with hK | hK
          · exact hK ▸ h
          · exact fun hin => (h2 K hK) (List.mem_cons_of_mem _ hin)
        · dsimp only
          intro q hq
          rcases List.mem_cons.mp hq with hq | hq
          · exact ⟨hq ▸ List.mem_cons_self _ _, hq ▸ hs⟩
          · exact ⟨List.mem_cons_of_mem _ (h3 q hq).1, (h3 q hq).2⟩
      | false =>
        obtain ⟨h1, h2, h3⟩ := ih ids
        have heq : publishLoop r (p :: ps) ids =
            (p :: (publishLoop r ps ids).1, (publishLoop r ps ids).2) := by
          simp [publishLoop, h, hs]
        rw [heq]
        refine ⟨h1, h2, ?_⟩
        dsimp only
        intro q hq
        exact ⟨List.mem_cons_of_mem _ (h3 q hq).1, (h3 q hq).2⟩

/-- C1: per run, a post id already in the ledger is never handed to the
publisher and no id is handed to it twice; and a ledger update keeps ids
unique and deletes no existing entry. -/
theorem C1_at_most_once_publish (r : Post → AttemptResult)
    (allPosts ledger : List Post) (hids : (allPosts.map Post.id).Nodup) :
    (∀ K : String,
      ((publishAttempts r allPosts ledger).map Post.id).count K ≤ 1) ∧
    (∀ K ∈ ledger.map Post.id,
      ((publishAttempts r allPosts ledger).map Post.id).count K = 0) ∧
    ((ledger.map Post.id).Nodup →
      ((updatedLedger r allPosts ledger).map Post.id).Nodup) ∧
    (∀ entry ∈ ledger, entry ∈ updatedLedger r allPosts ledger) := by
  refine ⟨?_, ?_, ?_, ?_⟩
  · intro K
    have hsub : ((publishAttempts r allPosts ledger).map Post.id).Sublist
        (allPosts.map Post.id) :=
      (publishLoop_attempts_sublist r allPosts (ledger.map Post.id)).map Post.id
    exact List.nodup_iff_count_le_one.mp (hids.sublist hsub) K
  · intro K hK
    exact List.count_eq_zero.mpr
      (publishLoop_skip_of_mem r K allPosts (ledger.map Post.id) hK)
  · intro hled
    obtain ⟨h1, h2, _⟩ := publishLoop_newly_spec r allPosts (ledger.map Post.id)
    by_cases hn : newlyPublished r allPosts ledger = []
    · simp [updatedLedger, hn, hled]
    · have hne : (newlyPublished r allPosts ledger).isEmpty = false := by
        simpa [List.isEmpty_iff] using hn
      simp only [updatedLedger, hne, Bool.false_eq_true, if_false, List.map_append]
      refine List.nodup_append.mpr ⟨h1, hled, ?_⟩
      intro K hK1 hK2
      exact h2 K hK1 hK2
  · intro entry hmem
    by_cases hn : newlyPublished r allPosts ledger = []
    · simpa [updatedLedger, hn] using hmem
    · have hne : (newlyPublished r allPosts ledger).isEmpty = false := by
        simpa [List.isEmpty_iff] using hn
      simp only [updatedLedger, hne, Bool.false_eq_true, if_false]
      exact List.mem_append_right _ hmem

def wPostA : Post :=
  { id := "docker_0_20250101_000000"
    title := "Docker: Docker 24 released - Jan 01, 2025"
    content := "body A"
    excerpt := "short summary"
    featuredImage := none
    featuredImageUrl := none
    category := "docker"
    tags := ["docker", "container", "cloud-native"]
    originalUrl := some "https://docker.com/blog/a"
    createdAt := "2025-01-01 00:00:00" }

def wPostB : Post :=
  { wPostA with
    id := "docker_1_20250101_000000"
    originalUrl := some "https://docker.com/blog/b" }

def wLedgerPost : Post :=
  { wPostA with
    id := "kubernetes_0_20241231_000000"
    category := "kubernetes" }

def wRemoteOk : Post → AttemptResult :=
  fun _ => AttemptResult.created 7 "https://blog.example.com/?p=7"

def wRemoteFail : Post → AttemptResult :=
  fun _ => AttemptResult.httpFailed 500 "Internal Server Error"

/-- Witness for C1: a concrete run over two fresh posts against a one-entry
ledger. -/
theorem C1_witness :
    (∀ K : String,
      ((publishAttempts wRemoteOk [wPostA, wPostB] [wLedgerPost]).map Post.id).count K ≤ 1) ∧
    (∀ K ∈ [wLedgerPost].map Post.id,
      ((publishAttempts wRemoteOk [wPostA, wPostB] [wLedgerPost]).map Post.id).count K = 0) ∧
    (([wLedgerPost].map Post.id).Nodup →
      ((updatedLedger wRemoteOk [wPostA, wPostB] [wLedgerPost]).map Post.id).Nodup) ∧
    (∀ entry ∈ [wLedgerPost],
      entry ∈ updatedLedger wRemoteOk [wPostA, wPostB] [wLedgerPost]) :=
  C1_at_most_once_publish wRemoteOk [wPostA, wPostB] [wLedgerPost] (by decide)

/-- C8: a post whose attempt ends in a non-success status or a network fault
is attempted at most once in the run, never enters newly_published, leaves
the ledger's entries for its id untouched, and is attempted again by a
subsequent run over the updated ledger. -/
theorem C8_failed_attempt_remains_eligible (r r2 : Post → AttemptResult)
    (allPosts ledger : List Post) (p : Post)
    (hids : (allPosts.map Post.id).Nodup) (hp : p ∈ allPosts)
    (hfail : publish_post_to_wordpress (r p) = false) :
    ((publishAttempts r allPosts ledger).map Post.id).count p.id ≤ 1 ∧
    p.id ∉ (newlyPublished r allPosts ledger).map Post.id ∧
    (p.id ∈ (updatedLedger r allPosts ledger).map Post.id ↔
      p.id ∈ ledger.map Post.id) ∧
    (p.id ∉ ledger.map Post.id →
      publishAttempts r2 [p] (updatedLedger r allPosts ledger) = [p]) := by
  have hnotnew : p.id ∉ (newlyPublished r allPosts ledger).map Post.id := by
    intro hmem
    obtain ⟨q, hq, hqid⟩ := List.mem_map.mp hmem
    obtain ⟨_, _, h3⟩ := publishLoop_newly_spec r allPosts (ledger.map Post.id)
    obtain ⟨hq1, hq2⟩ := h3 q hq
    have hqs : q ∈ allPosts :=
      (publishLoop_attempts_sublist r allPosts (ledger.map Post.id)).subset hq1
    have hqp : q = p := List.inj_on_of_nodup_map hids hqs hp hqid
    rw [hqp, hfail] at hq2
    exact Bool.noConfusion hq2
  have hiff : p.id ∈ (updatedLedger r allPosts ledger).map Post.id ↔
      p.id ∈ ledger.map Post.id := by
    by_cases hn : newlyPublished r allPosts ledger = []
    · simp [updatedLedger, hn]
    · have hne : (newlyPublished r allPosts ledger).isEmpty = false := by
        simpa [List.isEmpty_iff] using hn
      simp only [updatedLedger, hne, Bool.false_eq_true, if_false,
        List.map_append, List.mem_append]
      constructor
      · rintro (hmem | hmem)
        · exact absurd hmem hnotnew
        · exact hmem
      · exact Or.inr
  refine ⟨?_, hnotnew, hiff, ?_⟩
  · have hsub : ((publishAttempts r allPosts ledger).map Post.id).Sublist
        (allPosts.map Post.id) :=
      (publishLoop_attempts_sublist r allPosts (ledger.map Post.id)).map Post.id
    exact List.nodup_iff_count_le_one.mp (hids.sublist hsub) p.id
  · intro hnl
    have hnu : p.id ∉ (updatedLedger r allPosts ledger).map Post.id :=
      fun hm => hnl (hiff.mp hm)
    cases hs2 : publish_post_to_wordpress (r2 p) with
    | true => simp [publishAttempts, publishLoop, hnu, hs2]
    | false => simp [publishAttempts, publishLoop, hnu, hs2]

/-- Witness for C8: a concrete post whose single attempt fails with HTTP 500
against an empty ledger, then gets retried by a later run. -/
theorem C8_witness :
    ((publishAttempts wRemoteFail [wPostA] []).map Post.id).count wPostA.id ≤ 1 ∧
    wPostA.id ∉ (newlyPublished wRemoteFail [wPostA] []).map Post.id ∧
    (wPostA.id ∈ (updatedLedger wRemoteFail [wPostA] []).map Post.id ↔
      wPostA.id ∈ ([] : List Post).map Post.id) ∧
    (wPostA.id ∉ ([] : List Post).map Post.id →
      publishAttempts wRemoteOk [wPostA] (updatedLedger wRemoteFail [wPostA] []) =
        [wPostA]) :=
  C8_failed_attempt_remains_eligible wRemoteFail wRemoteOk [wPostA] [] wPostA
    (by decide) (List.mem_singleton.mpr rfl) rfl

end CollabnixNews
